import Mathlib

/-!
Verification development for the code-quality-predictor repository.

The TypeScript core is shallowly embedded: source text is a `List Char`,
JS numbers are `ℚ`, epoch-millisecond timestamps are `ℤ`, and the fixed
regular expressions of the analyzers are implemented as explicit
left-to-right scanners with JS backtracking semantics.  `Date` accessors
(`getHours`, `getDay`) are modelled at UTC.
-/

/-- JS `Math.round`: round half toward positive infinity. -/
def jsRound (q : ℚ) : ℤ := ⌊q + 1/2⌋

/-- JS regex word character `\w` = `[A-Za-z0-9_]`. -/
def isWordChar (c : Char) : Bool := c.isAlpha || c.isDigit || c = '_'

/-- JS whitespace class `\s` (ASCII part: space, tab, LF, CR, VT, FF). -/
def isSpaceJS (c : Char) : Bool :=
  c = ' ' || c = '\t' || c = '\n' || c = '\r' || c = '\x0b' || c = '\x0c'

/-- JS `String.prototype.trim` on a character list (ASCII whitespace). -/
def jsTrim (cs : List Char) : List Char :=
  ((cs.dropWhile isSpaceJS).reverse.dropWhile isSpaceJS).reverse

/-- JS `text.split('\n')` on a character list. -/
def splitLines (cs : List Char) : List (List Char) :=
  cs.foldr
    (fun c acc =>
      if c = '\n' then [] :: acc else (c :: acc.headD []) :: acc.tail)
    [[]]

/-- `Map.get` of the JS `Map<string, number>` used by the duplicate-line
counters, as an association-list lookup. -/
def mapGet : List (List Char × ℕ) → List Char → Option ℕ
  | [], _ => none
  | (k₂, v₂) :: rest, k => if k₂ = k then some v₂ else mapGet rest k

/-- `Map.set` of the JS `Map<string, number>`: replace or append. -/
def mapSet : List (List Char × ℕ) → List Char → ℕ → List (List Char × ℕ)
  | [], k, v => [(k, v)]
  | (k₂, v₂) :: rest, k, v =>
    if k₂ = k then (k, v) :: rest else (k₂, v₂) :: mapSet rest k v

/-- Strip a literal prefix, returning the remainder when it is present. -/
def dropLit (pre : List Char) (cs : List Char) : Option (List Char) :=
  if pre.isPrefixOf cs then some (cs.drop pre.length) else none

/-- One step of a global (`/g`) regex scan: a matcher receives the previous
character (for `\b`) and the remaining text, and returns the length of the
match at this position, if any.  On a match the scan resumes after it; on a
zero-length match JS records the empty match and advances one character. -/
def scanGo (m : Option Char → List Char → Option ℕ) :
    ℕ → Option Char → List Char → List (List Char)
  | 0, _, _ => []
  | _ + 1, _, [] => []
  | fuel + 1, prev, c :: cs =>
    match m prev (c :: cs) with
    | none => scanGo m fuel (some c) cs
    | some 0 => [] :: scanGo m fuel (some c) cs
    | some (n + 1) =>
      ((c :: cs).take (n + 1)) ::
        scanGo m fuel (((c :: cs).take (n + 1)).getLast?) ((c :: cs).drop (n + 1))

/-- All matches of a matcher over a text, exactly as `text.match(/…/g)`. -/
def scanMatches (m : Option Char → List Char → Option ℕ) (cs : List Char) :
    List (List Char) :=
  scanGo m (cs.length + 1) none cs

/-- `(text.match(/…/g) || []).length`. -/
def countMatches (m : Option Char → List Char → Option ℕ) (cs : List Char) : ℕ :=
  (scanMatches m cs).length

/-- Matcher for `\b<kw>\s*\(` (the extension's complexity keywords). -/
def matchKwParen (kw : List Char) (prev : Option Char) (cs : List Char) :
    Option ℕ := do
  match prev with
  | some p => guard (¬ isWordChar p)
  | none => pure ()
  let r₁ ← dropLit kw cs
  let w := (r₁.takeWhile isSpaceJS).length
  match r₁.drop w with
  | '(' :: _ => pure (kw.length + w + 1)
  | _ => none

/-- Matcher for `\b<kw>\b` (the backend's complexity keywords). -/
def matchWord (kw : List Char) (prev : Option Char) (cs : List Char) :
    Option ℕ := do
  match prev with
  | some p => guard (¬ isWordChar p)
  | none => pure ()
  let r₁ ← dropLit kw cs
  match r₁ with
  | [] => pure kw.length
  | c :: _ => if isWordChar c then none else pure kw.length

/-- Matcher for the ternary pattern `\?\s*.*?\s*:`.  The greedy `\s*`
groups backtrack from their longest extent and the lazy `.*?` grows from
the empty string, exactly as the JS engine searches. -/
def matchTernary (_prev : Option Char) (cs : List Char) : Option ℕ :=
  match cs with
  | '?' :: rest =>
    let W := (rest.takeWhile isSpaceJS).length
    ((List.range (W + 1)).map (fun k => W - k)).findSome? (fun a =>
      let s₁ := rest.drop a
      let N := (s₁.takeWhile (fun c => c != '\n')).length
      (List.range (N + 1)).findSome? (fun b =>
        let s₂ := s₁.drop b
        let M := (s₂.takeWhile isSpaceJS).length
        ((List.range (M + 1)).map (fun k => M - k)).findSome? (fun c =>
          match s₂.drop c with
          | ':' :: _ => some (1 + a + b + c + 1)
          | _ => none)))
  | _ => none

/-- Matcher for `function\s+\w+\s*\([^)]*\)\s*\{[^}]{minBody,}\}`.
With `minBody = 0` this is the extension's `js` long-function pattern;
with `minBody = 200` it is the backend's long-function pattern.  Each
greedy class run is maximal and disjoint from its successor, so maximal
munch is exact. -/
def matchJsFunction (minBody : ℕ) (_prev : Option Char) (cs : List Char) :
    Option ℕ := do
  let r₁ ← dropLit "function".data cs
  let w₁ := (r₁.takeWhile isSpaceJS).length
  guard (1 ≤ w₁)
  let r₂ := r₁.drop w₁
  let w₂ := (r₂.takeWhile isWordChar).length
  guard (1 ≤ w₂)
  let r₃ := r₂.drop w₂
  let w₃ := (r₃.takeWhile isSpaceJS).length
  match r₃.drop w₃ with
  | '(' :: r₄ =>
    let p := (r₄.takeWhile (fun c => c != ')')).length
    match r₄.drop p with
    | ')' :: r₅ =>
      let w₄ := (r₅.takeWhile isSpaceJS).length
      match r₅.drop w₄ with
      | '\x7b' :: r₆ =>
        let b := (r₆.takeWhile (fun c => c != '\x7d')).length
        guard (minBody ≤ b)
        match r₆.drop b with
        | '\x7d' :: _ =>
          pure (8 + w₁ + w₂ + w₃ + 1 + p + 1 + w₄ + 1 + b + 1)
        | _ => none
      | _ => none
    | _ => none
  | _ => none

/-- The `[^}]*\}` suffix shared by both branches of the extension's `ts`
long-function pattern: consume the maximal brace-free run, then `}`. -/
def tsSuffix (startLen : ℕ) (cs : List Char) : Option ℕ :=
  let r := cs.drop startLen
  let b := (r.takeWhile (fun c => c != '\x7d')).length
  match r.drop b with
  | '\x7d' :: _ => some (startLen + b + 1)
  | _ => none

/-- Matcher for the extension's `ts` pattern
`(function\s+\w+|\w+\s*:\s*\([^)]*\)\s*=>)[^}]*\}`: the first alternative
is tried first and the engine backtracks to the second when the suffix
fails. -/
def matchTsFunction (_prev : Option Char) (cs : List Char) : Option ℕ :=
  let branch₁ : Option ℕ := do
    let r₁ ← dropLit "function".data cs
    let w₁ := (r₁.takeWhile isSpaceJS).length
    guard (1 ≤ w₁)
    let r₂ := r₁.drop w₁
    let w₂ := (r₂.takeWhile isWordChar).length
    guard (1 ≤ w₂)
    pure (8 + w₁ + w₂)
  let branch₂ : Option ℕ := do
    let w₁ := (cs.takeWhile isWordChar).length
    guard (1 ≤ w₁)
    let r₁ := cs.drop w₁
    let s₁ := (r₁.takeWhile isSpaceJS).length
    match r₁.drop s₁ with
    | ':' :: r₂ =>
      let s₂ := (r₂.takeWhile isSpaceJS).length
      match r₂.drop s₂ with
      | '(' :: r₃ =>
        let p := (r₃.takeWhile (fun c => c != ')')).length
        match r₃.drop p with
        | ')' :: r₄ =>
          let s₃ := (r₄.takeWhile isSpaceJS).length
          let _ ← dropLit "=>".data (r₄.drop s₃)
          pure (w₁ + s₁ + 1 + s₂ + 1 + p + 1 + s₃ + 2)
        | _ => none
      | _ => none
    | _ => none
  match branch₁ with
  | some l =>
    match tsSuffix l cs with
    | some t => some t
    | none => branch₂.bind (fun l₂ => tsSuffix l₂ cs)
  | none => branch₂.bind (fun l₂ => tsSuffix l₂ cs)

/-- Index of the last occurrence of a character in a list, if any. -/
def lastIdxOf (c : Char) (l : List Char) : Option ℕ :=
  ((l.enum.filter (fun e => e.2 = c)).map (fun e => e.1)).getLast?

/-- The `(?:\n(?:\s{4,}[^\n]*|\s*\n))*` continuation loop of the
extension's `py` long-function pattern.  Each iteration consumes a
newline and then either a ≥4-whitespace indented line tail, or (when the
following whitespace run is shorter than 4) a `\s*\n` group, which the
engine resolves to the last newline inside that run.  Returns the total
length consumed and the remaining text. -/
def pyLoop : ℕ → ℕ → List Char → ℕ × List Char
  | 0, acc, rest => (acc, rest)
  | fuel + 1, acc, rest =>
    match rest with
    | '\n' :: r =>
      let w := (r.takeWhile isSpaceJS).length
      if 4 ≤ w then
        let r₂ := r.drop w
        let t := (r₂.takeWhile (fun c => c != '\n')).length
        pyLoop fuel (acc + 1 + w + t) (r₂.drop t)
      else
        match lastIdxOf '\n' (r.take w) with
        | some k => pyLoop fuel (acc + 1 + k + 1) (r.drop (k + 1))
        | none => (acc, rest)
    | _ => (acc, rest)

/-- Matcher for the extension's `py` pattern
`def\s+\w+\s*\([^)]*\):[^\n]*(?:\n(?:\s{4,}[^\n]*|\s*\n))*\n?`. -/
def matchPyFunction (_prev : Option Char) (cs : List Char) : Option ℕ := do
  let r₁ ← dropLit "def".data cs
  let w₁ := (r₁.takeWhile isSpaceJS).length
  guard (1 ≤ w₁)
  let r₂ := r₁.drop w₁
  let w₂ := (r₂.takeWhile isWordChar).length
  guard (1 ≤ w₂)
  let r₃ := r₂.drop w₂
  let w₃ := (r₃.takeWhile isSpaceJS).length
  match r₃.drop w₃ with
  | '(' :: r₄ =>
    let p := (r₄.takeWhile (fun c => c != ')')).length
    match r₄.drop p with
    | ')' :: ':' :: r₅ =>
      let t := (r₅.takeWhile (fun c => c != '\n')).length
      let head := 3 + w₁ + w₂ + w₃ + 1 + p + 2 + t
      let r₆ := r₅.drop t
      let lp := pyLoop (r₆.length + 1) 0 r₆
      let tail :=
        match lp.2 with
        | '\n' :: _ => 1
        | _ => 0
      pure (head + lp.1 + tail)
    | _ => none
  | _ => none

/-! ### Extension-side analyzer (`extension.ts`: `analyzeCodeQuality`) -/

/-- Total matches of the six complexity patterns of
`calculateComplexity`: `\bif\s*\(`, `\bfor\s*\(`, `\bwhile\s*\(`,
`\bswitch\s*\(`, `\bcatch\s*\(` and the ternary `\?\s*.*?\s*:`. -/
def totalComplexityMatches (text : List Char) : ℕ :=
  countMatches (matchKwParen "if".data) text +
  countMatches (matchKwParen "for".data) text +
  countMatches (matchKwParen "while".data) text +
  countMatches (matchKwParen "switch".data) text +
  countMatches (matchKwParen "catch".data) text +
  countMatches matchTernary text

/-- `calculateComplexity(text, extension)`: base complexity 1, plus one
per match of each of the six patterns, divided by 10 and capped at 10.
The `extension` argument is unused by the source as well. -/
def calculateComplexity (text : List Char) (_extension : String) : ℚ :=
  let complexity : ℕ := 1 + totalComplexityMatches text
  min 10 ((complexity : ℚ) / 10)

/-- `findDuplicateLines(lines)`: running occurrence counts of trimmed
lines longer than 10 characters; the duplicate counter is incremented
exactly when a line's previous count was 1. -/
def findDuplicateLines (lines : List (List Char)) : ℕ :=
  (lines.foldl
    (fun (acc : List (List Char × ℕ) × ℕ) line =>
      let trimmed := jsTrim line
      if 10 < trimmed.length then
        let count := (mapGet acc.1 trimmed).getD 0
        (mapSet acc.1 trimmed (count + 1),
         if count = 1 then acc.2 + 1 else acc.2)
      else acc)
    ([], 0)).2

/-- `findLongFunctions(text, extension)`: extension-specific function
regex, counting matches spanning more than 20 lines; unsupported
extensions yield 0. -/
def findLongFunctions (text : List Char) (extension : String) : ℕ :=
  let ms : Option (List (List Char)) :=
    if extension = "js" then some (scanMatches (matchJsFunction 0) text)
    else if extension = "ts" then some (scanMatches matchTsFunction text)
    else if extension = "py" then some (scanMatches matchPyFunction text)
    else none
  match ms with
  | none => 0
  | some fs => (fs.filter (fun f => 20 < (splitLines f).length)).length

/-- The extension's quality formula:
`Math.max(0, Math.min(100, 100 - complexity*10 - duplicateLines*5 - longFunctions*15))`. -/
def extQualityScore (complexity duplicateLines longFunctions : ℚ) : ℚ :=
  max 0 (min 100 (100 - complexity * 10 - duplicateLines * 5 - longFunctions * 15))

/-- Result record of the extension's `analyzeCodeQuality` (the fields the
claims refer to; `linesOfCode` and the `issues` strings are included for
completeness). -/
structure ExtAnalysis where
  qualityScore : ℤ
  bugRisk : ℚ
  maintainability : ℚ
  performance : ℚ
  linesOfCode : ℕ
  complexity : ℚ
  deriving DecidableEq

/-- `analyzeCodeQuality(document)` with the text and the lower-cased file
extension passed explicitly.  The returned `qualityScore` is
`Math.round`ed; the other scores are not. -/
def analyzeCodeQuality (text : List Char) (extension : String) : ExtAnalysis :=
  let lines := splitLines text
  let linesOfCode := (lines.filter (fun l => 0 < (jsTrim l).length)).length
  let complexity := calculateComplexity text extension
  let duplicateLines := findDuplicateLines lines
  let longFunctions := findLongFunctions text extension
  let qualityScore := extQualityScore complexity duplicateLines longFunctions
  { qualityScore := jsRound qualityScore
    bugRisk := min 100 (complexity * 15 + (duplicateLines : ℚ) * 3 + (longFunctions : ℚ) * 20)
    maintainability := max 1 (min 10 (10 - complexity * 2))
    performance := max 1 (min 10 (10 - (longFunctions : ℚ) * 3))
    linesOfCode := linesOfCode
    complexity := complexity }

/-- The complexity metric as the specification's sentence describes it
(claim C4): total pattern-match count divided by 10, clamped to [0, 10].
This definition follows the spec's words, for comparison with
`calculateComplexity`, which is translated from the source. -/
def specComplexity (text : List Char) : ℚ :=
  max 0 (min 10 ((totalComplexityMatches text : ℚ) / 10))

/-! ### Backend analyzer (`analyzeCode` in the Express/Supabase API) -/

/-- The backend's complexity count: matches of `\bif\b`, `\belse\b`,
`\bfor\b`, `\bwhile\b`, `\bswitch\b`, `\bcatch\b`, `\btry\b`, summed. -/
def backendComplexity (text : List Char) : ℕ :=
  countMatches (matchWord "if".data) text +
  countMatches (matchWord "else".data) text +
  countMatches (matchWord "for".data) text +
  countMatches (matchWord "while".data) text +
  countMatches (matchWord "switch".data) text +
  countMatches (matchWord "catch".data) text +
  countMatches (matchWord "try".data) text

/-- The backend's long-function count:
`function\s+\w+\s*\([^)]*\)\s*\{[^}]{200,}\}` matches. -/
def backendLongFunctions (text : List Char) : ℕ :=
  countMatches (matchJsFunction 200) text

/-- The backend's duplicate-line count: group lines by trimmed text
(nonempty and longer than 10 characters), and sum `group.length - 1`
over groups with more than one member — every repeat beyond the first
occurrence counts. -/
def backendDuplicateLines (lines : List (List Char)) : ℕ :=
  let groups := lines.foldl
    (fun (acc : List (List Char × ℕ)) line =>
      let trimmed := jsTrim line
      if 0 < trimmed.length ∧ 10 < trimmed.length then
        mapSet acc trimmed ((mapGet acc trimmed).getD 0 + 1)
      else acc)
    []
  (groups.filter (fun g => 1 < g.2)).foldl (fun sum g => sum + (g.2 - 1)) 0

/-- Result record of the backend's `analyzeCode` (scores and metrics; the
issue/suggestion strings are threshold-triggered text and are omitted). -/
structure BackendAnalysis where
  qualityScore : ℚ
  totalLines : ℕ
  nonEmptyLines : ℕ
  complexity : ℕ
  longFunctions : ℕ
  duplicateLines : ℕ
  grade : String
  deriving DecidableEq

/-- The backend's `analyzeCode(code)`: quality =
`Math.max(0, Math.min(100, 100 - complexity*8 - duplicateLines*3 - longFunctions*12))`,
returned unrounded. -/
def analyzeCode (text : List Char) : BackendAnalysis :=
  let lines := splitLines text
  let totalLines := lines.length
  let nonEmptyLines := (lines.filter (fun l => 0 < (jsTrim l).length)).length
  let complexity := backendComplexity text
  let longFunctions := backendLongFunctions text
  let duplicateLines := backendDuplicateLines lines
  let qualityScore : ℚ :=
    max 0 (min 100 (100 - (complexity : ℚ) * 8 - (duplicateLines : ℚ) * 3 -
      (longFunctions : ℚ) * 12))
  { qualityScore := qualityScore
    totalLines := totalLines
    nonEmptyLines := nonEmptyLines
    complexity := complexity
    longFunctions := longFunctions
    duplicateLines := duplicateLines
    grade :=
      if 80 ≤ qualityScore then "A"
      else if 60 ≤ qualityScore then "B"
      else if 40 ≤ qualityScore then "C"
      else "D" }

/-! ### Data model and the two prediction models -/

/-- `QualityPattern` (one sample per recorded analysis). -/
structure QualityPattern where
  timestamp : ℤ
  qualityScore : ℚ
  sessionDuration : ℚ
  linesAnalyzed : ℚ
  filesModified : ℚ
  issuesFound : ℚ
  projectType : String
  complexity : ℚ
  deriving DecidableEq

/-- `encodeProjectType`: fixed string-to-number table, unknown types map
to 0 via JS `|| 0`. -/
def encodeProjectType (s : String) : ℚ :=
  if s = "JavaScript" then 1
  else if s = "TypeScript" then 2
  else if s = "Python" then 3
  else if s = "Java" then 4
  else if s = "C++" then 5
  else if s = "C#" then 6
  else if s = "Go" then 7
  else if s = "Rust" then 8
  else 0

/-- `getTimeOfDay`: `new Date(t).getHours() / 24`, modelled at UTC. -/
def getTimeOfDay (t : ℤ) : ℚ := (((t.fdiv 3600000) % 24 : ℤ) : ℚ) / 24

/-- `new Date(t).getDay()` at UTC: day of week, 0 = Sunday
(epoch day 0, 1970-01-01, was a Thursday). -/
def getDayOfWeekNum (t : ℤ) : ℤ := ((t.fdiv 86400000) + 4) % 7

/-- `getDayOfWeek`: `new Date(t).getDay() / 7`. -/
def getDayOfWeek (t : ℤ) : ℚ := ((getDayOfWeekNum t : ℤ) : ℚ) / 7

/-- Mutable state of `LinearRegressionModel`. -/
structure LRState where
  weights : List ℚ
  bias : ℚ
  isTrained : Bool

/-- A fresh `LinearRegressionModel`. -/
def initLR : LRState := { weights := [], bias := 0, isTrained := false }

namespace LinearRegressionModel

/-- `extractFeatures`: the 8 engineered features per history sample. -/
def extractFeatures (h : List QualityPattern) : List (List ℚ) :=
  h.map (fun q =>
    [q.sessionDuration, q.linesAnalyzed, q.filesModified, q.issuesFound,
     q.complexity, encodeProjectType q.projectType,
     getTimeOfDay q.timestamp, getDayOfWeek q.timestamp])

/-- `predictValue`: dot product plus bias, clamped to [0, 100];
empty weight vector yields the default 75.  (The source indexes
`weights[i]` for `i < features.length`; trained weights and feature
vectors both have length 8, modelled with `zipWith`.) -/
def predictValue (weights : List ℚ) (bias : ℚ) (features : List ℚ) : ℚ :=
  if weights.length = 0 then 75
  else max 0 (min 100 (bias + (List.zipWith (fun w f => w * f) weights features).sum))

/-- One example step of `trainLinearRegression`: prediction error times
learning rate 0.01 updates each weight and the bias. -/
def lrExample (wb : List ℚ × ℚ) (ft : List ℚ × ℚ) : List ℚ × ℚ :=
  let prediction := predictValue wb.1 wb.2 ft.1
  let error := ft.2 - prediction
  (List.zipWith (fun w f => w + (1/100) * error * f) wb.1 ft.1,
   wb.2 + (1/100) * error)

/-- `trainLinearRegression`: weights restarted at zero, 100 fixed epochs
of example-by-example updates over the full batch. -/
def trainLinearRegression (features : List (List ℚ)) (targets : List ℚ) :
    List ℚ × ℚ :=
  let numFeatures := (features.headD []).length
  (List.range 100).foldl
    (fun wb _ => (features.zip targets).foldl lrExample wb)
    (List.replicate numFeatures 0, 0)

/-- `LinearRegressionModel.train`: histories shorter than 5 leave the
state untouched; otherwise retrain from scratch and set `isTrained`. -/
def train (s : LRState) (qualityHistory : List QualityPattern) : LRState :=
  if qualityHistory.length < 5 then s
  else
    let features := extractFeatures qualityHistory
    let targets := qualityHistory.map (fun q => q.qualityScore)
    let wb := trainLinearRegression features targets
    { weights := wb.1, bias := wb.2, isTrained := true }

/-- Output record of `predict` (the `riskFactors.bugProbability` nesting
is flattened into the `bugProbability` field). -/
structure PredictionOutput where
  daily : ℤ
  weekly : ℤ
  confidence : ℚ
  bugProbability : ℚ
  deriving DecidableEq

/-- `fallbackPrediction`: constants 75 / 0.3 / 20 with no recent samples,
otherwise averages of recent quality and issue counts. -/
def fallbackPrediction (recentQuality : List QualityPattern) : PredictionOutput :=
  if recentQuality.length = 0 then
    { daily := 75, weekly := 75, confidence := 3/10, bugProbability := 20 }
  else
    let avgQuality := (recentQuality.map (fun q => q.qualityScore)).sum /
      (recentQuality.length : ℚ)
    let avgIssues := (recentQuality.map (fun q => q.issuesFound)).sum /
      (recentQuality.length : ℚ)
    { daily := jsRound avgQuality, weekly := jsRound avgQuality,
      confidence := 1/2, bugProbability := min 100 (avgIssues * 15) }

/-- `calculatePredictionConfidence`: stepwise in the sample count. -/
def calculatePredictionConfidence (dataPoints : ℕ) : ℚ :=
  if dataPoints = 0 then 3/10
  else if dataPoints < 10 then 1/2
  else if dataPoints < 50 then 7/10
  else 9/10

/-- `extractFeaturesFromCurrent`: averaged recent features; with no
recent samples, zeros plus `projectMetrics.complexity || 0.5` (JS `||`
turns a zero complexity into 0.5). -/
def extractFeaturesFromCurrent (now : ℤ) (recentQuality : List QualityPattern)
    (pmComplexity : ℚ) : List ℚ :=
  if recentQuality.length = 0 then
    [0, 0, 0, 0, if pmComplexity = 0 then 1/2 else pmComplexity, 0, 0, 0]
  else
    let n : ℚ := recentQuality.length
    let avgDuration := (recentQuality.map (fun q => q.sessionDuration)).sum / n
    let avgLines := (recentQuality.map (fun q => q.linesAnalyzed)).sum / n
    let avgFiles := (recentQuality.map (fun q => q.filesModified)).sum / n
    let avgIssues := (recentQuality.map (fun q => q.issuesFound)).sum / n
    let avgComplexity := (recentQuality.map (fun q => q.complexity)).sum / n
    let latestProjectType :=
      match recentQuality.getLast? with
      | some q => if q.projectType = "" then "Unknown" else q.projectType
      | none => "Unknown"
    [avgDuration, avgLines, avgFiles, avgIssues, avgComplexity,
     encodeProjectType latestProjectType, getTimeOfDay now, getDayOfWeek now]

/-- `LinearRegressionModel.predict` with `Date.now()` passed as `now` and
`projectMetrics.complexity` passed as `pmComplexity`.  Untrained models
or empty windows fall back. -/
def predict (now : ℤ) (s : LRState) (recentQuality : List QualityPattern)
    (pmComplexity : ℚ) : PredictionOutput :=
  if s.isTrained = false ∨ recentQuality.length = 0 then
    fallbackPrediction recentQuality
  else
    let features := extractFeaturesFromCurrent now recentQuality pmComplexity
    let prediction := predictValue s.weights s.bias features
    let bugProbability := max 0 (min 100 ((100 - prediction) * (8/10)))
    { daily := max 0 (jsRound prediction)
      weekly := max 0 (jsRound prediction)
      confidence := calculatePredictionConfidence recentQuality.length
      bugProbability := bugProbability }

end LinearRegressionModel

/-- Trend label of `TimeSeriesModel.predict`. -/
inductive Trend where
  | improving
  | declining
  | stable
  deriving DecidableEq

/-- Mutable state of `TimeSeriesModel`. -/
structure TSState where
  trendCoefficient : ℚ
  seasonalFactors : List ℚ
  isInitialized : Bool

/-- A fresh `TimeSeriesModel`. -/
def initTS : TSState :=
  { trendCoefficient := 0, seasonalFactors := [], isInitialized := false }

namespace TimeSeriesModel

/-- `analyzeTrend`: closed-form least-squares slope of quality score
against sequential index over the whole history (0 below 2 samples). -/
def analyzeTrend (h : List QualityPattern) : ℚ :=
  if h.length < 2 then 0
  else
    let n : ℚ := h.length
    let sumX : ℚ := (h.enum.map (fun e => (e.1 : ℚ))).sum
    let sumY : ℚ := (h.enum.map (fun e => e.2.qualityScore)).sum
    let sumXY : ℚ := (h.enum.map (fun e => (e.1 : ℚ) * e.2.qualityScore)).sum
    let sumXX : ℚ := (h.enum.map (fun e => (e.1 : ℚ) * (e.1 : ℚ))).sum
    (n * sumXY - sumX * sumY) / (n * sumXX - sumX * sumX)

/-- `analyzeSeasonality`: per-day-of-week average quality score, 75 for
days with no samples. -/
def analyzeSeasonality (h : List QualityPattern) : List ℚ :=
  (List.range 7).map (fun d =>
    let scores := h.filter (fun q => getDayOfWeekNum q.timestamp = (d : ℤ))
    if scores.length = 0 then 75
    else (scores.map (fun q => q.qualityScore)).sum / (scores.length : ℚ))

/-- `TimeSeriesModel.train`: fewer than 7 samples leave the state
untouched; otherwise recompute trend and seasonality from scratch. -/
def train (s : TSState) (qualityHistory : List QualityPattern) : TSState :=
  if qualityHistory.length < 7 then s
  else
    { trendCoefficient := analyzeTrend qualityHistory
      seasonalFactors := analyzeSeasonality qualityHistory
      isInitialized := true }

/-- `calculateSeasonality`: today's day-of-week factor minus the 7-day
average (`today` stands for `new Date().getDay()`). -/
def calculateSeasonality (s : TSState) (today : ℕ) : ℚ :=
  if s.seasonalFactors.length = 0 then 0
  else s.seasonalFactors.getD today 0 - s.seasonalFactors.sum / 7

/-- `calculateConfidence` of the time-series model. -/
def calculateConfidence (dataPoints : ℕ) : ℚ :=
  if dataPoints < 7 then 3/10
  else if dataPoints < 30 then 3/5
  else if dataPoints < 90 then 4/5
  else 9/10

/-- Output record of `TimeSeriesModel.predict`. -/
structure TimeSeriesPrediction where
  daily : ℤ
  weekly : ℤ
  trend : Trend
  seasonality : ℚ
  confidence : ℚ
  deriving DecidableEq

/-- `defaultPrediction` for uninitialized models or empty histories. -/
def defaultPrediction : TimeSeriesPrediction :=
  { daily := 75, weekly := 75, trend := Trend.stable, seasonality := 0,
    confidence := 3/10 }

/-- `TimeSeriesModel.predict`: average of the last 7 samples plus the
trend coefficient (times 7 for the weekly figure); the trend label is
improving above slope 2, declining below −2, else stable. -/
def predict (s : TSState) (qualityHistory : List QualityPattern)
    (today : ℕ) : TimeSeriesPrediction :=
  if s.isInitialized = false ∨ qualityHistory.length = 0 then defaultPrediction
  else
    let recentQuality := qualityHistory.drop (qualityHistory.length - 7)
    let avgQuality := (recentQuality.map (fun q => q.qualityScore)).sum /
      (recentQuality.length : ℚ)
    let dailyPrediction := avgQuality + s.trendCoefficient
    let weeklyPrediction := avgQuality + s.trendCoefficient * 7
    let trend :=
      if 2 < s.trendCoefficient then Trend.improving
      else if s.trendCoefficient < -2 then Trend.declining
      else Trend.stable
    { daily := max 0 (min 100 (jsRound dailyPrediction))
      weekly := max 0 (min 100 (jsRound weeklyPrediction))
      trend := trend
      seasonality := calculateSeasonality s today
      confidence := calculateConfidence qualityHistory.length }

end TimeSeriesModel

/-! ### DataStorage (the persistence collaborator) -/

/-- `UserSettings` stored by `DataStorage`. -/
structure UserSettings where
  qualityThreshold : ℚ
  notificationThreshold : ℚ
  enableAutoTracking : Bool
  enablePredictions : Bool
  analysisDepth : String
  lastSyncTime : ℤ

/-- `ModelData` stored by `DataStorage` (`timeSeriesData` is typed `any`
in the source and modelled as an optional time-series state). -/
structure ModelData where
  regressionWeights : List ℚ
  regressionBias : ℚ
  timeSeriesData : Option TSState
  lastTrainingTime : ℤ
  trainingDataCount : ℕ

/-- `SessionData` stored by `DataStorage`. -/
structure SessionData where
  id : String
  startTime : ℤ
  endTime : ℤ
  qualityScore : ℚ
  linesAnalyzed : ℚ
  filesModified : List String
  projectType : String
  complexity : ℚ

/-- The `context.globalState` key-value blob store, restricted to the
four `codeQuality.*` keys `DataStorage` uses; a missing key is `none`. -/
structure Store where
  qualityHistory : Option (List QualityPattern)
  userSettings : Option UserSettings
  modelData : Option ModelData
  sessionData : Option (List SessionData)

/-- A fresh store with no keys present. -/
def emptyStore : Store :=
  { qualityHistory := none, userSettings := none, modelData := none,
    sessionData := none }

/-- Default settings returned by `loadUserSettings` when nothing is
stored. -/
def defaultUserSettings : UserSettings :=
  { qualityThreshold := 75, notificationThreshold := 50,
    enableAutoTracking := true, enablePredictions := true,
    analysisDepth := "thorough", lastSyncTime := 0 }

/-- Default `ModelData` substituted by `exportAllData` when none is
stored. -/
def defaultModelData : ModelData :=
  { regressionWeights := [], regressionBias := 0, timeSeriesData := none,
    lastTrainingTime := 0, trainingDataCount := 0 }

/-- `saveQualityHistory`: `slice(-1000)` before writing — keep the most
recent 1000 entries. -/
def saveQualityHistory (st : Store) (h : List QualityPattern) : Store :=
  { st with qualityHistory := some (h.drop (h.length - 1000)) }

/-- `loadQualityHistory`: stored history or `[]`. -/
def loadQualityHistory (st : Store) : List QualityPattern :=
  st.qualityHistory.getD []

/-- `saveUserSettings`. -/
def saveUserSettings (st : Store) (s : UserSettings) : Store :=
  { st with userSettings := some s }

/-- `loadUserSettings`: the stored record spread over the defaults; a
fully-populated stored record is returned as-is, a missing key yields
the defaults. -/
def loadUserSettings (st : Store) : UserSettings :=
  st.userSettings.getD defaultUserSettings

/-- `saveModelData`. -/
def saveModelData (st : Store) (m : ModelData) : Store :=
  { st with modelData := some m }

/-- `loadModelData`: stored model data or `null`. -/
def loadModelData (st : Store) : Option ModelData :=
  st.modelData

/-- `saveSessionData`: `slice(-100)` before writing. -/
def saveSessionData (st : Store) (xs : List SessionData) : Store :=
  { st with sessionData := some (xs.drop (xs.length - 100)) }

/-- `loadSessionData`: stored sessions or `[]`. -/
def loadSessionData (st : Store) : List SessionData :=
  st.sessionData.getD []

/-- The backup record produced by `exportAllData`. -/
structure StoredData where
  qualityHistory : List QualityPattern
  userSettings : UserSettings
  modelData : ModelData
  sessionData : List SessionData

/-- `exportAllData`: the four loads, with a default `ModelData` when
none is stored. -/
def exportAllData (st : Store) : StoredData :=
  { qualityHistory := loadQualityHistory st
    userSettings := loadUserSettings st
    modelData := (loadModelData st).getD defaultModelData
    sessionData := loadSessionData st }

/-- `importAllData`: the four saves, in source order. -/
def importAllData (st : Store) (d : StoredData) : Store :=
  saveSessionData
    (saveModelData
      (saveUserSettings
        (saveQualityHistory st d.qualityHistory)
        d.userSettings)
      d.modelData)
    d.sessionData

/-! ### AnalysisEngine -/

/-- The engine's owned state: in-memory history, both model states and
its `DataStorage`. -/
structure EngineState where
  history : List QualityPattern
  lr : LRState
  ts : TSState
  store : Store

/-- A freshly-activated engine over an empty store. -/
def initEngine : EngineState :=
  { history := [], lr := initLR, ts := initTS, store := emptyStore }

/-- `getRecentQuality`: samples from the last 24 hours. -/
def getRecentQuality (now : ℤ) (history : List QualityPattern) :
    List QualityPattern :=
  history.filter (fun p => decide (now - 86400000 < p.timestamp))

/-- `calculateQualityScore`: rounded average of recent quality scores,
75 when there are none. -/
def calculateQualityScore (recentQuality : List QualityPattern) : ℤ :=
  if recentQuality.length = 0 then 75
  else jsRound ((recentQuality.map (fun q => q.qualityScore)).sum /
    (recentQuality.length : ℚ))

/-- `calculateBugRisk`: complexity-derived base risk plus the regression
model's bug probability (`riskFactors?.bugProbability || 0` is the
identity on the always-present numeric field), clamped to [0, 100]. -/
def calculateBugRisk (bugProbability : ℚ) (complexity : ℚ) : ℚ :=
  min 100 (max 0 (complexity * 30 + bugProbability))

/-- `calculateMaintainability`: rounded, clamped average of a complexity
factor and a quality factor. -/
def calculateMaintainability (pmComplexity : ℚ)
    (recentQuality : List QualityPattern) : ℤ :=
  let complexityFactor := (1 - pmComplexity) * 10
  let qualityFactor := (calculateQualityScore recentQuality : ℚ) / 10
  jsRound (min 10 (max 1 ((complexityFactor + qualityFactor) / 2)))

/-- `calculatePerformance`: base 8 minus three times the project
complexity, clamped to [1, 10] and rounded. -/
def calculatePerformance (pmComplexity : ℚ) : ℤ :=
  jsRound (min 10 (max 1 (8 - pmComplexity * 3)))

/-- `calculateConfidence` of the engine: stepwise in the number of
recent samples. -/
def calculateConfidence (dataPoints : ℕ) : ℚ :=
  if dataPoints = 0 then 1/2
  else if dataPoints < 10 then 3/5
  else if dataPoints < 50 then 4/5
  else 95/100

/-- `generateQualityRecommendations`: threshold-triggered strings plus
two constant recommendations. -/
def generateQualityRecommendations (recentQuality : List QualityPattern)
    (pmComplexity : ℚ) (bugRisk : ℚ) : List String :=
  (if 50 < bugRisk then
    ["High bug risk detected - consider refactoring complex functions"]
   else []) ++
  (if 7/10 < pmComplexity then
    ["Project complexity is high - break down large components"]
   else []) ++
  (if recentQuality.any (fun q => decide (5 < q.issuesFound)) then
    ["Multiple issues found - implement stricter code review process"]
   else []) ++
  ["Maintain consistent coding standards", "Add comprehensive unit tests"]

/-- The record returned by `generateAnalysis`. -/
structure AnalysisResult where
  overallQuality : ℤ
  bugRisk : ℚ
  maintainabilityScore : ℤ
  performanceScore : ℤ
  confidence : ℚ
  recommendations : List String

/-- `generateAnalysis`, with `Date.now()` passed as `now` and the
`ProjectAnalyzer`'s metric record reduced to its `complexity` field
`pmComplexity`, the only field the computation reads.  The source also
calls `timeSeriesModel.predict`, whose result is unused in the returned
record and is therefore omitted. -/
def generateAnalysis (now : ℤ) (history : List QualityPattern)
    (lr : LRState) (pmComplexity : ℚ) : AnalysisResult :=
  let recentQuality := getRecentQuality now history
  let overallQuality := calculateQualityScore recentQuality
  let regressionAnalysis := LinearRegressionModel.predict now lr recentQuality pmComplexity
  let bugRisk := calculateBugRisk regressionAnalysis.bugProbability pmComplexity
  let maintainabilityScore := calculateMaintainability pmComplexity recentQuality
  let performanceScore := calculatePerformance pmComplexity
  let confidence := calculateConfidence recentQuality.length
  let recommendations :=
    generateQualityRecommendations recentQuality pmComplexity bugRisk
  { overallQuality := overallQuality
    bugRisk := bugRisk
    maintainabilityScore := maintainabilityScore
    performanceScore := performanceScore
    confidence := confidence
    recommendations := recommendations }

/-- `updateModels`: unconditional full retrain of both models once the
history holds more than 10 entries. -/
def updateModels (s : EngineState) : EngineState :=
  if 10 < s.history.length then
    { s with lr := LinearRegressionModel.train s.lr s.history
             ts := TimeSeriesModel.train s.ts s.history }
  else s

/-- `recordQuality`: append, cap the in-memory history at the most
recent 1000 entries (`slice(-1000)` once the length exceeds 1000),
persist, then update the models. -/
def recordQuality (s : EngineState) (p : QualityPattern) : EngineState :=
  let h₁ := s.history ++ [p]
  let h₂ := if 1000 < h₁.length then h₁.drop (h₁.length - 1000) else h₁
  updateModels
    { s with history := h₂, store := saveQualityHistory s.store h₂ }

/-! Concrete inputs used by counterexamples and witnesses. -/

/-- Two identical 12-character lines with no keyword, ternary or function
pattern in them: a minimal input on which the two analyzers disagree. -/
def text0 : List Char := "aaaaaaaaaaaa\naaaaaaaaaaaa".data

/-- A simple concrete quality sample. -/
def pat0 : QualityPattern :=
  { timestamp := 0, qualityScore := 80, sessionDuration := 30,
    linesAnalyzed := 100, filesModified := 2, issuesFound := 0,
    projectType := "TypeScript", complexity := 1/2 }

/-- Sample number `i` of the claim-C8 scenario: one sample per day, quality
scores rising linearly from 60 (day 0) to 90 (day 11). -/
def mkSample (i : ℕ) : QualityPattern :=
  { timestamp := (i : ℤ) * 86400000, qualityScore := 60 + 30 * (i : ℚ) / 11,
    sessionDuration := 45, linesAnalyzed := 200, filesModified := 3,
    issuesFound := 1, projectType := "TypeScript", complexity := 1/2 }

/-- The 12 claim-C8 samples. -/
def c8Samples : List QualityPattern :=
  [mkSample 0, mkSample 1, mkSample 2, mkSample 3, mkSample 4, mkSample 5,
   mkSample 6, mkSample 7, mkSample 8, mkSample 9, mkSample 10, mkSample 11]

/-- A store whose history blob holds 1001 entries, one over the cap. -/
def bigStore : Store :=
  { qualityHistory := some (List.replicate 1001 pat0), userSettings := none,
    modelData := none, sessionData := none }

/-- An engine holding a full 1000-entry history. -/
def engine1000 : EngineState :=
  { history := pat0 :: List.replicate 999 pat0, lr := initLR, ts := initTS,
    store := emptyStore }

/-! Shared helper lemmas. -/

/-- Evaluation rule for `jsRound` from the floor characterisation. -/
theorem jsRound_eq {q : ℚ} {n : ℤ} (h₁ : (n : ℚ) ≤ q + 1/2)
    (h₂ : q + 1/2 < n + 1) : jsRound q = n := by
  rw [jsRound]
  exact Int.floor_eq_iff.mpr ⟨h₁, by exact_mod_cast h₂⟩

/-- Lower bound for `jsRound`. -/
theorem le_jsRound {n : ℤ} {q : ℚ} (h : (n : ℚ) ≤ q) : n ≤ jsRound q := by
  rw [jsRound]
  exact Int.le_floor.mpr (by linarith)

/-- Upper bound for `jsRound`. -/
theorem jsRound_le {q : ℚ} {n : ℤ} (h : q ≤ n) : jsRound q ≤ n := by
  rw [jsRound]
  rw [Int.lt_add_one_iff.symm]
  exact Int.floor_lt.mpr (by push_cast; linarith)

/-- Rounding a value clamped into [1, 10] stays in [1, 10]. -/
theorem jsRound_clamp110 (x : ℚ) :
    1 ≤ jsRound (min 10 (max 1 x)) ∧ jsRound (min 10 (max 1 x)) ≤ 10 :=
  ⟨le_jsRound (by push_cast; exact le_min (by norm_num) (le_max_left 1 x)),
   jsRound_le (by push_cast; exact min_le_left 10 (max 1 x))⟩

/-- `updateModels` retrains the models but never touches the history. -/
theorem updateModels_history (s : EngineState) :
    (updateModels s).history = s.history := by
  unfold updateModels
  split_ifs <;> rfl

/-- One `recordQuality` call leaves at most 1000 entries, from any start. -/
theorem recordQuality_len_le (s : EngineState) (p : QualityPattern) :
    (recordQuality s p).history.length ≤ 1000 := by
  unfold recordQuality
  rw [updateModels_history]
  dsimp only
  have hb : (s.history ++ [p]).length = s.history.length + 1 := by simp
  split_ifs with h
  · simp only [List.length_drop]
    omega
  · omega

/-- The extension gives `text0` (with extension `js`) quality score 94. -/
theorem analyzeCodeQuality_text0 : (analyzeCodeQuality text0 "js").qualityScore = 94 := by
  have h1 : totalComplexityMatches text0 = 0 := by decide
  have h2 : findDuplicateLines (splitLines text0) = 1 := by decide
  have h3 : findLongFunctions text0 "js" = 0 := by decide
  simp only [analyzeCodeQuality, calculateComplexity, h1, h2, h3]
  have h4 : extQualityScore (min 10 (((1 + 0 : ℕ) : ℚ) / 10)) (1 : ℕ) (0 : ℕ) = 94 := by
    norm_num [extQualityScore, min_def, max_def]
  rw [h4]
  exact jsRound_eq (by norm_num) (by norm_num)

/-- The backend gives `text0` quality score 97. -/
theorem analyzeCode_text0 : (analyzeCode text0).qualityScore = 97 := by
  have h1 : backendComplexity text0 = 0 := by decide
  have h2 : backendLongFunctions text0 = 0 := by decide
  have h3 : backendDuplicateLines (splitLines text0) = 1 := by decide
  simp only [analyzeCode, h1, h2, h3]
  norm_num [min_def, max_def]

/-! Claim theorems. -/

/-- C1: for every metric bundle with complexity in [0,10] and nonnegative
duplicate-line and long-function counts, the quality score satisfies
quality + (complexity*10 + duplicateLines*5 + longFunctions*15) = 100
whenever the unclamped value lies in [0,100], and the quality score always
lies in [0,100]. -/
theorem c1_quality_score_inverts_penalty (c d l : ℚ)
    (_hc0 : 0 ≤ c) (_hc10 : c ≤ 10) (_hd : 0 ≤ d) (_hl : 0 ≤ l) :
    (0 ≤ 100 - (c * 10 + d * 5 + l * 15) →
      100 - (c * 10 + d * 5 + l * 15) ≤ 100 →
      extQualityScore c d l + (c * 10 + d * 5 + l * 15) = 100) ∧
    0 ≤ extQualityScore c d l ∧ extQualityScore c d l ≤ 100 := by
  unfold extQualityScore
  refine ⟨fun h0 h100 => ?_, le_max_left 0 _,
    max_le (by norm_num) (min_le_left _ _)⟩
  have e1 : 100 - c * 10 - d * 5 - l * 15 = 100 - (c * 10 + d * 5 + l * 15) := by
    ring
  rw [e1, min_eq_right h100, max_eq_right h0]
  ring

/-- Witness for C1 at complexity 1, duplicateLines 2, longFunctions 3
(unclamped value 35). -/
theorem c1_quality_score_inverts_penalty_witness :
    extQualityScore 1 2 3 + ((1 : ℚ) * 10 + 2 * 5 + 3 * 15) = 100 ∧
    0 ≤ extQualityScore 1 2 3 ∧ extQualityScore 1 2 3 ≤ 100 :=
  ⟨(c1_quality_score_inverts_penalty 1 2 3 (by norm_num) (by norm_num)
      (by norm_num) (by norm_num)).1 (by norm_num) (by norm_num),
   (c1_quality_score_inverts_penalty 1 2 3 (by norm_num) (by norm_num)
      (by norm_num) (by norm_num)).2.1,
   (c1_quality_score_inverts_penalty 1 2 3 (by norm_num) (by norm_num)
      (by norm_num) (by norm_num)).2.2⟩

/-- C2: after any nonempty sequence of recordQuality calls the history never
exceeds 1000 entries, and eviction is oldest-first: appending to a
1000-entry history drops exactly the head, so the former entry 1 is gone
(when distinct from the survivors) and the former entry 2 is the oldest
entry present. -/
theorem c2_history_capped_oldest_first :
    (∀ calls : List QualityPattern,
      (calls.foldl recordQuality initEngine).history.length ≤ 1000) ∧
    (∀ (s : EngineState) (calls : List QualityPattern), calls ≠ [] →
      (calls.foldl recordQuality s).history.length ≤ 1000) ∧
    (∀ (s : EngineState) (e : QualityPattern) (rest : List QualityPattern)
      (p : QualityPattern), s.history = e :: rest → rest.length = 999 →
      (recordQuality s p).history = rest ++ [p] ∧
      (e ∉ rest → e ≠ p → e ∉ (recordQuality s p).history) ∧
      (recordQuality s p).history.head? = rest.head?) := by
  have hfold : ∀ (s : EngineState) (calls : List QualityPattern), calls ≠ [] →
      (calls.foldl recordQuality s).history.length ≤ 1000 := by
    intro s calls hc
    induction calls generalizing s with
    | nil => exact absurd rfl hc
    | cons c cs ih =>
      cases cs with
      | nil => exact recordQuality_len_le s c
      | cons c₂ cs₂ => exact ih (recordQuality s c) (by simp)
  refine ⟨fun calls => ?_, hfold, ?_⟩
  · cases calls with
    | nil => simp [initEngine]
    | cons c cs => exact hfold initEngine (c :: cs) (by simp)
  · intro s e rest p hs hr
    have hev : (recordQuality s p).history = rest ++ [p] := by
      unfold recordQuality
      rw [updateModels_history]
      dsimp only
      simp only [hs]
      rw [if_pos (by simp [hr])]
      simp [hr]
    refine ⟨hev, fun hne hnep => ?_, ?_⟩
    · rw [hev]
      simp only [List.mem_append, List.mem_singleton]
      rintro (h | h)
      · exact hne h
      · exact hnep h
    · rw [hev]
      cases rest with
      | nil => simp at hr
      | cons r rs => simp

/-- Witness for C2: one call from the fresh engine stays within the cap,
and a call on a full 1000-entry history drops exactly the head entry. -/
theorem c2_history_capped_oldest_first_witness :
    ([pat0].foldl recordQuality initEngine).history.length ≤ 1000 ∧
    (recordQuality engine1000 pat0).history = List.replicate 999 pat0 ++ [pat0] :=
  ⟨c2_history_capped_oldest_first.2.1 initEngine [pat0] (by simp),
   (c2_history_capped_oldest_first.2.2 engine1000 pat0 (List.replicate 999 pat0)
      pat0 rfl (by rw [List.length_replicate])).1⟩

/-- C3: three identical lines whose trimmed text is longer than 10
characters yield duplicate count exactly 1 (the counter advances only on
the transition from occurrence 1 to 2), and a line with trimmed length at
most 10 is ignored entirely. -/
theorem c3_duplicate_counted_once :
    (∀ s : List Char, 10 < (jsTrim s).length →
      findDuplicateLines [s, s, s] = 1) ∧
    (∀ (t : List Char) (rest : List (List Char)), (jsTrim t).length ≤ 10 →
      findDuplicateLines (t :: rest) = findDuplicateLines rest) := by
  constructor
  · intro s h
    simp [findDuplicateLines, List.foldl, h, mapGet, mapSet]
  · intro t rest h
    simp [findDuplicateLines, List.foldl, Nat.not_lt.mpr h]

/-- Witness for C3 at a concrete 12-character line. -/
theorem c3_duplicate_counted_once_witness :
    findDuplicateLines ["aaaaaaaaaaaa".data, "aaaaaaaaaaaa".data,
      "aaaaaaaaaaaa".data] = 1 ∧
    findDuplicateLines ["ab".data, "aaaaaaaaaaaa".data] =
      findDuplicateLines ["aaaaaaaaaaaa".data] :=
  ⟨c3_duplicate_counted_once.1 "aaaaaaaaaaaa".data (by decide),
   c3_duplicate_counted_once.2 "ab".data ["aaaaaaaaaaaa".data] (by decide)⟩

/-- C4 counterexample: on the empty text every pattern has zero matches,
yet the complexity metric is 0.1, not 0 — the source folds from a base
complexity of 1 before dividing by 10. -/
theorem c4_base_complexity_counterexample :
    calculateComplexity [] "" = 1/10 ∧ specComplexity [] = 0 ∧
    calculateComplexity [] "" ≠ specComplexity [] := by
  have h0 : totalComplexityMatches [] = 0 := rfl
  refine ⟨?_, ?_, ?_⟩ <;>
    norm_num [calculateComplexity, specComplexity, h0, min_def, max_def]

/-- C4 amended: the complexity metric equals (1 + total pattern-match
count) / 10 capped above at 10 — never the bare match count over 10 — so
it always lies in [0.1, 10] and is 0.1 (not 0) on a zero-match text. -/
theorem c4_complexity_amended (text : List Char) (ext : String) :
    calculateComplexity text ext =
      min 10 (((1 + totalComplexityMatches text : ℕ) : ℚ) / 10) ∧
    1/10 ≤ calculateComplexity text ext ∧ calculateComplexity text ext ≤ 10 := by
  refine ⟨rfl, ?_, min_le_left _ _⟩
  unfold calculateComplexity
  have h1 : (1 : ℚ) ≤ ((1 + totalComplexityMatches text : ℕ) : ℚ) := by
    exact_mod_cast Nat.le_add_right 1 (totalComplexityMatches text)
  refine le_min (by norm_num) ?_
  rw [div_le_div_iff₀ (by norm_num) (by norm_num)] at *
  nlinarith

/-- C5 counterexample: a history of exactly 5 samples (length ≤ 5 as the
claim quantifies) already trains the model — the source guard is
`length < 5`, not `length ≤ 5`. -/
theorem c5_train_at_five_counterexample :
    (List.replicate 5 pat0).length ≤ 5 ∧ initLR.isTrained = false ∧
    (LinearRegressionModel.train initLR (List.replicate 5 pat0)).isTrained = true :=
  ⟨by decide, rfl, rfl⟩

/-- C5 amended: for histories of length strictly below 5, train leaves the
fresh model unchanged (isTrained stays false), and predict then takes the
fallback path: quality 75, bugProbability 20 and confidence 0.3 with no
recent samples, and the average-based fallbackPrediction otherwise. -/
theorem c5_untrained_fallback_amended (h : List QualityPattern)
    (hlen : h.length < 5) :
    LinearRegressionModel.train initLR h = initLR ∧
    (∀ (pm : ℚ) (now : ℤ),
      LinearRegressionModel.predict now (LinearRegressionModel.train initLR h) [] pm =
        { daily := 75, weekly := 75, confidence := 3/10, bugProbability := 20 }) ∧
    (∀ (now : ℤ) (recent : List QualityPattern) (pm : ℚ),
      LinearRegressionModel.predict now (LinearRegressionModel.train initLR h)
        recent pm = LinearRegressionModel.fallbackPrediction recent) := by
  have htr : LinearRegressionModel.train initLR h = initLR := by
    unfold LinearRegressionModel.train
    rw [if_pos hlen]
  have hfb : ∀ (now : ℤ) (recent : List QualityPattern) (pm : ℚ),
      LinearRegressionModel.predict now (LinearRegressionModel.train initLR h)
        recent pm = LinearRegressionModel.fallbackPrediction recent := by
    intro now recent pm
    rw [htr]
    unfold LinearRegressionModel.predict
    rw [if_pos (Or.inl (show initLR.isTrained = false from rfl))]
  refine ⟨htr, fun pm now => ?_, hfb⟩
  rw [hfb now [] pm]
  unfold LinearRegressionModel.fallbackPrediction
  rfl

/-- Witness for the amended C5 at the empty history. -/
theorem c5_untrained_fallback_amended_witness :
    LinearRegressionModel.train initLR [] = initLR ∧
    LinearRegressionModel.predict 0 (LinearRegressionModel.train initLR []) [] (1/2) =
      { daily := 75, weekly := 75, confidence := 3/10, bugProbability := 20 } :=
  ⟨(c5_untrained_fallback_amended [] (by decide)).1,
   (c5_untrained_fallback_amended [] (by decide)).2.1 (1/2) 0⟩

/-- C6 counterexample: with empty history and project complexity 0 the
analysis reports bugRisk 20 (the untrained regression fallback contributes
bugProbability 20), not complexity*30 clamped, which would be 0. -/
theorem c6_empty_history_bugrisk_counterexample :
    (generateAnalysis 0 [] initLR 0).bugRisk = 20 ∧
    min 100 (max 0 ((0 : ℚ) * 30)) = 0 ∧
    (generateAnalysis 0 [] initLR 0).bugRisk ≠ min 100 (max 0 ((0 : ℚ) * 30)) := by
  have hpred : LinearRegressionModel.predict 0 initLR [] 0 =
      { daily := 75, weekly := 75, confidence := 3/10, bugProbability := 20 } := by
    unfold LinearRegressionModel.predict
    rw [if_pos (Or.inr (show ([] : List QualityPattern).length = 0 from rfl))]
    unfold LinearRegressionModel.fallbackPrediction
    rfl
  have hbug : (generateAnalysis 0 [] initLR 0).bugRisk =
      min 100 (max 0 ((0 : ℚ) * 30 + 20)) := by
    unfold generateAnalysis
    rw [show getRecentQuality 0 [] = [] from rfl]
    dsimp only
    rw [hpred]
    rfl
  rw [hbug]
  norm_num [calculateBugRisk, min_def, max_def]

/-- C6 amended: with empty history, generateAnalysis returns overallQuality
75 and confidence 0.5 as the claim states, but bugRisk equals
clamp(0, 100, complexity*30 + 20): the regression fallback adds its
constant bugProbability 20 to the complexity-derived base risk. -/
theorem c6_empty_history_amended (now : ℤ) (lr : LRState) (c : ℚ) :
    (generateAnalysis now [] lr c).overallQuality = 75 ∧
    (generateAnalysis now [] lr c).bugRisk = min 100 (max 0 (c * 30 + 20)) ∧
    (generateAnalysis now [] lr c).confidence = 1/2 := by
  have hrec : getRecentQuality now [] = [] := rfl
  unfold generateAnalysis
  rw [hrec]
  dsimp only
  have hpred : LinearRegressionModel.predict now lr [] c =
      { daily := 75, weekly := 75, confidence := 3/10, bugProbability := 20 } := by
    unfold LinearRegressionModel.predict
    rw [if_pos (Or.inr (show ([] : List QualityPattern).length = 0 from rfl))]
    unfold LinearRegressionModel.fallbackPrediction
    rfl
  rw [hpred]
  exact ⟨rfl, rfl, rfl⟩

/-- C7 counterexample: on two identical keyword-free 12-character lines
the extension scores 94 (complexity 0.1 from its base 1, duplicate count 1
by the first-repeat rule, weights 10/5/15) while the backend scores 97
(complexity 0, duplicate count 1 by the all-repeats rule, weights 8/3/12). -/
theorem c7_backend_differs_counterexample :
    ((analyzeCodeQuality text0 "js").qualityScore : ℚ) ≠
      (analyzeCode text0).qualityScore := by
  rw [analyzeCodeQuality_text0, analyzeCode_text0]
  norm_num

/-- C7 amended: both analyzers produce quality scores clamped into [0,100]
by the same clamp shape, but they are not the same function: their pattern
sets, duplicate counting and weights differ, and they disagree already on
a two-line input. -/
theorem c7_backend_amended :
    (∀ (text : List Char) (ext : String),
      0 ≤ (analyzeCodeQuality text ext).qualityScore ∧
      (analyzeCodeQuality text ext).qualityScore ≤ 100) ∧
    (∀ text : List Char,
      0 ≤ (analyzeCode text).qualityScore ∧ (analyzeCode text).qualityScore ≤ 100) ∧
    ((analyzeCodeQuality text0 "js").qualityScore : ℚ) ≠
      (analyzeCode text0).qualityScore := by
  refine ⟨fun text ext => ?_, fun text => ?_, ?_⟩
  · have hq : (analyzeCodeQuality text ext).qualityScore =
        jsRound (extQualityScore (calculateComplexity text ext)
          (findDuplicateLines (splitLines text)) (findLongFunctions text ext)) := rfl
    rw [hq]
    unfold extQualityScore
    constructor
    · exact le_jsRound (by push_cast; exact le_max_left 0 _)
    · exact jsRound_le (max_le (by norm_num) (min_le_left _ _))
  · have hq : (analyzeCode text).qualityScore =
        max 0 (min 100 (100 - (backendComplexity text : ℚ) *
          8 - (backendDuplicateLines (splitLines text) : ℚ) * 3 -
          (backendLongFunctions text : ℚ) * 12)) := rfl
    rw [hq]
    exact ⟨le_max_left 0 _, max_le (by norm_num) (min_le_left _ _)⟩
  · rw [analyzeCodeQuality_text0, analyzeCode_text0]
    norm_num

/-- C8: over the 12 one-per-day samples rising linearly from 60 to 90 the
closed-form least-squares slope is 30/11, which exceeds 2, and the trained
time-series model therefore predicts the trend label `improving`. -/
theorem c8_trend_improving :
    TimeSeriesModel.analyzeTrend c8Samples = 30/11 ∧ (2 : ℚ) < 30/11 ∧
    (TimeSeriesModel.predict (TimeSeriesModel.train initTS c8Samples)
      c8Samples 3).trend = Trend.improving := by
  have hlen : c8Samples.length = 12 := by decide
  have htrend : TimeSeriesModel.analyzeTrend c8Samples = 30/11 := by
    simp only [TimeSeriesModel.analyzeTrend, c8Samples, mkSample, List.enum,
      List.enumFrom, List.map, List.sum_cons, List.sum_nil, List.length]
    norm_num
  have htr : (TimeSeriesModel.train initTS c8Samples).trendCoefficient = 30/11 := by
    simp only [TimeSeriesModel.train, hlen]
    norm_num [htrend]
  have hinit : (TimeSeriesModel.train initTS c8Samples).isInitialized = true := by
    simp only [TimeSeriesModel.train, hlen]
    norm_num
  refine ⟨htrend, by norm_num, ?_⟩
  simp only [TimeSeriesModel.predict, hinit, hlen, htr]
  norm_num

set_option maxRecDepth 10000 in
/-- C9 counterexample: a stored history of 1001 entries is not reproduced
by export-then-import into a fresh store — the import truncates it to the
most recent 1000. -/
theorem c9_roundtrip_counterexample :
    exportAllData (importAllData emptyStore (exportAllData bigStore)) ≠
      exportAllData bigStore := by
  intro hcontra
  have hq := congrArg StoredData.qualityHistory hcontra
  have hL : (exportAllData (importAllData emptyStore
      (exportAllData bigStore))).qualityHistory =
      (List.replicate 1001 pat0).drop 1 := by
    show (List.replicate 1001 pat0).drop ((List.replicate 1001 pat0).length - 1000) = _
    rw [List.length_replicate]
  have hR : (exportAllData bigStore).qualityHistory = List.replicate 1001 pat0 := rfl
  rw [hL, hR] at hq
  have hlen := congrArg List.length hq
  rw [List.length_drop, List.length_replicate] at hlen
  omega

/-- C9 amended: for every stored state whose loaded quality history holds
at most 1000 entries and whose loaded session data holds at most 100
entries (the documented caps), exporting and importing into a fresh store
reproduces the exported history, settings, model state and session data
exactly. -/
theorem c9_roundtrip_amended (st : Store)
    (h1 : (loadQualityHistory st).length ≤ 1000)
    (h2 : (loadSessionData st).length ≤ 100) :
    exportAllData (importAllData emptyStore (exportAllData st)) =
      exportAllData st := by
  unfold loadQualityHistory at h1
  unfold loadSessionData at h2
  unfold exportAllData importAllData
  unfold saveSessionData saveModelData saveUserSettings saveQualityHistory
  unfold loadQualityHistory loadUserSettings loadModelData loadSessionData
  dsimp only
  simp only [Option.getD_some, StoredData.mk.injEq]
  refine ⟨?_, trivial, trivial, ?_⟩
  · rw [Nat.sub_eq_zero_of_le h1]
    exact List.drop_zero _
  · rw [Nat.sub_eq_zero_of_le h2]
    exact List.drop_zero _

/-- Witness for the amended C9 at the empty store. -/
theorem c9_roundtrip_amended_witness :
    exportAllData (importAllData emptyStore (exportAllData emptyStore)) =
      exportAllData emptyStore :=
  c9_roundtrip_amended emptyStore (by decide) (by decide)

/-- C10: every AnalysisResult has confidence in {0.5, 0.6, 0.8, 0.95} —
never below 0.5 — and integer maintainability and performance scores in
[1, 10], for every engine state and project complexity. -/
theorem c10_analysis_result_invariants (now : ℤ) (history : List QualityPattern)
    (lr : LRState) (pmComplexity : ℚ) :
    ((generateAnalysis now history lr pmComplexity).confidence = 1/2 ∨
     (generateAnalysis now history lr pmComplexity).confidence = 3/5 ∨
     (generateAnalysis now history lr pmComplexity).confidence = 4/5 ∨
     (generateAnalysis now history lr pmComplexity).confidence = 95/100) ∧
    1 ≤ (generateAnalysis now history lr pmComplexity).maintainabilityScore ∧
    (generateAnalysis now history lr pmComplexity).maintainabilityScore ≤ 10 ∧
    1 ≤ (generateAnalysis now history lr pmComplexity).performanceScore ∧
    (generateAnalysis now history lr pmComplexity).performanceScore ≤ 10 := by
  have hconf : (generateAnalysis now history lr pmComplexity).confidence =
      calculateConfidence (getRecentQuality now history).length := rfl
  have hm : (generateAnalysis now history lr pmComplexity).maintainabilityScore =
      calculateMaintainability pmComplexity (getRecentQuality now history) := rfl
  have hp : (generateAnalysis now history lr pmComplexity).performanceScore =
      calculatePerformance pmComplexity := rfl
  rw [hconf, hm, hp]
  refine ⟨?_, ?_, ?_, ?_, ?_⟩
  · unfold calculateConfidence
    split_ifs <;> simp
  · exact (jsRound_clamp110 _).1
  · exact (jsRound_clamp110 _).2
  · exact (jsRound_clamp110 _).1
  · exact (jsRound_clamp110 _).2
